import Mathlib

/-!
Shallow embedding of the webp-converter core (`src/converter.js`): the
`Utils` pure helpers (validation, size formatting, reduction formatting,
filename derivation) and the `ImageConverter` engine (load / convert /
reset / observers).  JavaScript numbers are modelled exactly: byte sizes
as `Nat`, qualities and computed ratios as `ℚ`; the real-valued
`Math.log(bytes)/Math.log(1024)` index is modelled by its exact value
(the base-1024 integer logarithm), and `toFixed` by round-half-up on the
exact rational, matching the ECMAScript definition on exact values.
Platform effects (image decode, canvas WebP encode, object-URL
creation/revocation) are modelled as explicit parameters and an explicit
URL registry threaded through the operations.
-/

namespace WebpConv

/-- A JS `File`-like object as the converter consumes it:
`{ name, type (MIME string), size (bytes) }`. -/
structure JSFile where
  name : String
  type : String
  size : Nat
deriving DecidableEq, Repr

/-- JS `String.prototype.split` with a single-character separator,
on the character list of the string. -/
def splitOnChar (c : Char) : List Char → List (List Char)
  | [] => [[]]
  | x :: xs =>
    let rest := splitOnChar c xs
    if x = c then [] :: rest
    else
      match rest with
      | [] => [[x]]
      | r :: rs => (x :: r) :: rs

/-- JS `Array.prototype.join(sep)`. -/
def joinSep (sep : String) : List String → String
  | [] => ""
  | [x] => x
  | x :: y :: ys => x ++ sep ++ joinSep sep (y :: ys)

/-- JS `String.prototype.toUpperCase` (ASCII, as all inputs here are). -/
def upperStr (s : String) : String :=
  String.mk (s.data.map Char.toUpper)

/-- JS `String.prototype.lastIndexOf` for a single character:
the index of the last occurrence, `-1` when absent. -/
def lastIndexOfChar (c : Char) : List Char → Int
  | [] => -1
  | x :: xs =>
    let r := lastIndexOfChar c xs
    if 0 ≤ r then r + 1
    else if x = c then 0
    else -1

/-- Round the exact nonnegative rational `a / b` to the nearest integer,
half up: `⌊a / b + 1 / 2⌋ = (2 * a + b) / (2 * b)` in `Nat` division.
This is what JS `toFixed` does to an exact nonnegative value (ECMAScript
picks the larger candidate on ties). -/
def roundHalfUp (a b : Nat) : Nat :=
  (2 * a + b) / (2 * b)

/-- Drop trailing decimal zeros from a scaled decimal `n / 10 ^ dm`:
returns the reduced `(numerator, decimals)` pair.  Models what JS
`parseFloat` + number-to-string does to the output of `toFixed`. -/
def stripTrailingZeros : Nat → Nat → Nat × Nat
  | n, 0 => (n, 0)
  | n, d + 1 => if n % 10 = 0 then stripTrailingZeros (n / 10) d else (n, d + 1)

/-- Left-pad a numeral with zeros to `k` digits. -/
def padZeros (s : String) (k : Nat) : String :=
  String.mk (List.replicate (k - s.length) '0') ++ s

/-- Render the scaled decimal `n / 10 ^ dm` the way JS prints the number
`parseFloat(x.toFixed(dm))`: shortest form, trailing zeros dropped. -/
def scaledToShortString (n dm : Nat) : String :=
  let p := stripTrailingZeros n dm
  if p.2 = 0 then toString p.1
  else toString (p.1 / 10 ^ p.2) ++ "." ++ padZeros (toString (p.1 % 10 ^ p.2)) p.2

/-- Render the scaled decimal `n / 10 ^ dm` the way JS prints
`x.toFixed(dm)` itself: always exactly `dm` decimals (used with `dm = 1`
by `calculateReduction`). -/
def scaledToFixedString (n dm : Nat) : String :=
  if dm = 0 then toString n
  else toString (n / 10 ^ dm) ++ "." ++ padZeros (toString (n % 10 ^ dm)) dm

/-- The exact value of `Math.floor(Math.log(n) / Math.log(1024))` for
`n ≥ 1`: the number of times `n` can be divided by 1024 before falling
below 1024.  First argument is fuel (`n` itself suffices). -/
def unitIndexAux : Nat → Nat → Nat
  | 0, _ => 0
  | fuel + 1, n => if n < 1024 then 0 else unitIndexAux fuel (n / 1024) + 1

/-- `⌊log_1024 n⌋` for `n ≥ 1` (the unit index of `formatFileSize`). -/
def unitIndex (n : Nat) : Nat :=
  unitIndexAux n n

namespace Utils

/-- `Utils.SUPPORTED_TYPES` from `converter.js`. -/
def SUPPORTED_TYPES : List String :=
  ["image/png", "image/jpeg", "image/jpg", "image/gif", "image/bmp", "image/svg+xml"]

/-- `Utils.MAX_FILE_SIZE = 10 * 1024 * 1024` from `converter.js`. -/
def MAX_FILE_SIZE : Nat := 10 * 1024 * 1024

/-- `Utils.isValidFileType`: `SUPPORTED_TYPES.includes(file.type)`. -/
def isValidFileType (file : JSFile) : Bool :=
  SUPPORTED_TYPES.contains file.type

/-- `Utils.isValidFileSize`: `file.size <= MAX_FILE_SIZE`. -/
def isValidFileSize (file : JSFile) : Bool :=
  file.size ≤ MAX_FILE_SIZE

/-- `Utils.formatFileSize(bytes, decimals)`:
`'0 Bytes'` for zero; otherwise
`parseFloat((bytes / 1024^i).toFixed(dm)) + ' ' + sizes[i]` with
`i = floor(log(bytes)/log(1024))` (modelled exactly), and `sizes[i]`
evaluating to JS `undefined` (printed `"undefined"`) when `i` is out of
bounds of the 4-element table, exactly as the unclamped JS lookup does. -/
def formatFileSize (bytes : Nat) (decimals : Int) : String :=
  if bytes = 0 then "0 Bytes"
  else
    let dm := if decimals < 0 then 0 else decimals.toNat
    let sizes := ["Bytes", "KB", "MB", "GB"]
    let i := unitIndex bytes
    let scaled := roundHalfUp (bytes * 10 ^ dm) (1024 ^ i)
    scaledToShortString scaled dm ++ " " ++ sizes.getD i "undefined"

/-- The outcome record of `Utils.validateFile`: `{ valid, error }`. -/
structure ValidationOutcome where
  valid : Bool
  error : Option String
deriving DecidableEq, Repr

/-- `Utils.validateFile(file)`: missing-file check, then type check
(message enumerating the allow-list uppercased after the `/`), then
size check (messages built with `formatFileSize`). -/
def validateFile (file : Option JSFile) : ValidationOutcome :=
  match file with
  | none => ⟨false, some "No file selected"⟩
  | some f =>
    if !isValidFileType f then
      let supportedFormats :=
        joinSep ", " (SUPPORTED_TYPES.map fun t =>
          upperStr (String.mk ((splitOnChar '/' t.data).getD 1 [])))
      ⟨false, some ("Unsupported file type: " ++ f.type ++
        ". Supported formats: " ++ supportedFormats)⟩
    else if !isValidFileSize f then
      ⟨false, some ("File size exceeds " ++ formatFileSize MAX_FILE_SIZE 2 ++
        " limit. Selected file: " ++ formatFileSize f.size 2)⟩
    else ⟨true, none⟩

/-- `Utils.calculateReduction(originalSize, newSize)`:
`reduction = ((originalSize - newSize) / originalSize) * 100`, sign `'-'`
when `reduction >= 0` else `'+'`, magnitude `Math.abs(reduction).toFixed(1)`.
For byte counts (`Nat`) and `originalSize > 0`, `reduction ≥ 0` is exactly
`newSize ≤ originalSize`, and `|reduction| * 10 = |originalSize - newSize|
* 1000 / originalSize` exactly, rounded half-up by `toFixed(1)`.  (The JS
`originalSize = 0` case yields `NaN`/`Infinity` and is outside the
modelled domain; every use in the engine has a positive original size.) -/
def calculateReduction (originalSize newSize : Nat) : String :=
  if newSize ≤ originalSize then
    "-" ++ (scaledToFixedString (roundHalfUp ((originalSize - newSize) * 1000) originalSize) 1 ++ "%")
  else
    "+" ++ (scaledToFixedString (roundHalfUp ((newSize - originalSize) * 1000) originalSize) 1 ++ "%")

/-- `Utils.getFileExtension(filename)`:
`filename.split('.').pop().toUpperCase()`. -/
def getFileExtension (filename : String) : String :=
  upperStr (String.mk ((splitOnChar '.' filename.data).getLastD []))

/-- `Utils.generateWebPFilename(originalFilename)`:
`originalFilename.substring(0, originalFilename.lastIndexOf('.')) + '.webp'`;
JS `substring` clamps the negative end index (no `'.'`) to 0. -/
def generateWebPFilename (originalFilename : String) : String :=
  let idx := lastIndexOfChar '.' originalFilename.data
  let nameWithoutExt := String.mk (originalFilename.data.take idx.toNat)
  nameWithoutExt ++ ".webp"

end Utils

/-- A decoded image (`HTMLImageElement` after a successful `Utils.loadImage`):
its `src` (the data URL the loader assigned) and natural dimensions. -/
structure Img where
  src : String
  naturalWidth : Nat
  naturalHeight : Nat
deriving DecidableEq, Repr

/-- A byte blob produced by the platform encoder; the core observes only
its byte size (plus identity via this record's value). -/
structure Blob where
  size : Nat
deriving DecidableEq, Repr

/-- The mutable `ImageConverter.state` record from `converter.js`. -/
structure ConverterState where
  originalFile : Option JSFile
  originalImage : Option Img
  convertedBlob : Option Blob
  quality : ℚ
  isConverting : Bool
deriving DecidableEq, Repr

/-- The browser object-URL subsystem, made explicit: a fresh-name counter
and the list of URLs created by `URL.createObjectURL` and not yet revoked. -/
structure UrlRegistry where
  next : Nat
  live : List String
deriving DecidableEq, Repr

/-- `URL.createObjectURL(blob)`: returns a fresh `blob:` URL and records
it as live. -/
def createObjectURL (reg : UrlRegistry) : String × UrlRegistry :=
  let u := "blob:" ++ toString reg.next
  (u, ⟨reg.next + 1, u :: reg.live⟩)

/-- `URL.revokeObjectURL(u)`: removes `u` from the live set; a no-op when
`u` was never issued by `createObjectURL` (e.g. a `data:` URL). -/
def revokeObjectURL (u : String) (reg : UrlRegistry) : UrlRegistry :=
  ⟨reg.next, reg.live.erase u⟩

namespace ImageConverter

/-- The initial value of `ImageConverter.state` (also what `reset`
reinstalls): no file, no image, no blob, quality 0.9, not converting. -/
def initialState : ConverterState :=
  { originalFile := none
    originalImage := none
    convertedBlob := none
    quality := 9 / 10
    isConverting := false }

/-- The record `loadImageFile` resolves with on success. -/
structure LoadResult where
  file : JSFile
  image : Img
  format : String
  size : Nat
  width : Nat
  height : Nat
  dataUrl : String
deriving DecidableEq, Repr

/-- `ImageConverter.loadImageFile(file)`.  The platform decode
(`Utils.loadImage`) is the only suspension point; its outcome is the
explicit `decoded` parameter (`none` models a decode failure, rejecting
with `'Failed to load image'`).  Thrown errors are `Except.error` with
the thrown message; the state is returned alongside. -/
def loadImageFile (s : ConverterState) (file : Option JSFile) (decoded : Option Img) :
    Except String LoadResult × ConverterState :=
  let validation := Utils.validateFile file
  match file with
  | none => (.error (validation.error.getD ""), s)
  | some f =>
    if !validation.valid then (.error (validation.error.getD ""), s)
    else
      match decoded with
      | none => (.error "Failed to load image", s)
      | some img =>
        (.ok
          { file := f
            image := img
            format := Utils.getFileExtension f.name
            size := f.size
            width := img.naturalWidth
            height := img.naturalHeight
            dataUrl := img.src },
         { s with originalFile := some f, originalImage := some img })

/-- The record `convertToWebP` resolves with on success. -/
structure ConvResult where
  blob : Blob
  previewUrl : String
  size : Nat
  originalSize : Nat
  reduction : String
  quality : ℚ
  width : Nat
  height : Nat
deriving DecidableEq, Repr

/-- `ImageConverter.convertToWebP(quality)` (the `quality` argument
defaults to `state.quality` in JS; it is explicit here).  The platform
encoder outcome (`canvas.toBlob`) is the explicit `encOut` parameter:
`none` models a null blob, whose rejection is caught and rethrown as
`'Conversion failed: ...'` with the `finally` clause clearing
`isConverting`.  Both guard throws happen before `isConverting` or
`quality` are written.  On the success path the blob is stored, a
preview URL created, and the result built; `finally` clears the flag.
(The `originalFile = none` sub-case, unreachable after `loadImageFile`,
would throw a `TypeError` inside the `try`; it is modelled as the
corresponding wrapped error after the blob store and URL creation.) -/
def convertToWebP (s : ConverterState) (reg : UrlRegistry) (quality : ℚ)
    (encOut : Option Blob) :
    Except String ConvResult × ConverterState × UrlRegistry :=
  match s.originalImage with
  | none => (.error "No image loaded for conversion", s, reg)
  | some img =>
    if s.isConverting then (.error "Conversion already in progress", s, reg)
    else
      let s1 := { s with isConverting := true, quality := quality }
      match encOut with
      | none =>
        (.error "Conversion failed: Failed to convert image to WebP",
         { s1 with isConverting := false }, reg)
      | some blob =>
        let s2 := { s1 with convertedBlob := some blob }
        let pr := createObjectURL reg
        match s2.originalFile with
        | none =>
          (.error "Conversion failed: TypeError", { s2 with isConverting := false }, pr.2)
        | some f =>
          (.ok
            { blob := blob
              previewUrl := pr.1
              size := blob.size
              originalSize := f.size
              reduction := Utils.calculateReduction f.size blob.size
              quality := quality * 100
              width := img.naturalWidth
              height := img.naturalHeight },
           { s2 with isConverting := false }, pr.2)

/-- `ImageConverter.updateQuality(quality)`: normalizes the 0–100 value
and calls `convertToWebP`. -/
def updateQuality (s : ConverterState) (reg : UrlRegistry) (quality : ℚ)
    (encOut : Option Blob) :
    Except String ConvResult × ConverterState × UrlRegistry :=
  convertToWebP s reg (quality / 100) encOut

/-- `ImageConverter.reset()`: revokes `state.originalImage.src` when an
image is present (a no-op on the data URL the loader assigned, since it
is not an object URL), then reinstalls the initial state.  It has no
failure outcome and performs no busy check. -/
def reset (s : ConverterState) (reg : UrlRegistry) : ConverterState × UrlRegistry :=
  let reg1 :=
    match s.originalImage with
    | some img => revokeObjectURL img.src reg
    | none => reg
  (initialState, reg1)

/-- `ImageConverter.getState()`: a shallow copy of the state record (pure
model: the value itself). -/
def getState (s : ConverterState) : ConverterState :=
  s

/-- `ImageConverter.hasImage()`: `state.originalImage !== null`.  This is
the code-level reading of the spec's `snapshotState().hasSource`. -/
def hasImage (s : ConverterState) : Bool :=
  s.originalImage.isSome

/-- `ImageConverter.isConverted()`: `state.convertedBlob !== null`. -/
def isConverted (s : ConverterState) : Bool :=
  s.convertedBlob.isSome

end ImageConverter

/-! ### Shared lemmas about the helpers -/

/-- The fuelled base-1024 logarithm is characterised by the usual power
sandwich as soon as the fuel covers the argument. -/
theorem unitIndexAux_spec : ∀ (fuel n : Nat), 0 < n → n ≤ fuel →
    1024 ^ unitIndexAux fuel n ≤ n ∧ n < 1024 ^ (unitIndexAux fuel n + 1) := by
  intro fuel
  induction fuel with
  | zero => intro n hn hle; omega
  | succ f ih =>
    intro n hn hle
    by_cases h : n < 1024
    · simp only [unitIndexAux, if_pos h]
      constructor
      · simpa using hn
      · simpa using h
    · simp only [unitIndexAux, if_neg h]
      have hb : 1024 ≤ n := Nat.le_of_not_lt h
      have hdpos : 0 < n / 1024 := Nat.div_pos hb (by norm_num)
      have hdlt : n / 1024 < n := Nat.div_lt_self hn (by norm_num)
      obtain ⟨h1, h2⟩ := ih (n / 1024) hdpos (by omega)
      constructor
      · calc 1024 ^ (unitIndexAux f (n / 1024) + 1)
            = 1024 ^ unitIndexAux f (n / 1024) * 1024 := by ring
          _ ≤ n / 1024 * 1024 := Nat.mul_le_mul_right _ h1
          _ ≤ n := Nat.div_mul_le_self n 1024
      · have h3 : n < 1024 ^ (unitIndexAux f (n / 1024) + 1) * 1024 :=
          (Nat.div_lt_iff_lt_mul (by norm_num : 0 < 1024)).mp h2
        calc n < 1024 ^ (unitIndexAux f (n / 1024) + 1) * 1024 := h3
          _ = 1024 ^ (unitIndexAux f (n / 1024) + 1 + 1) := by ring

/-- `unitIndex n` satisfies the power sandwich `1024 ^ i ≤ n < 1024 ^ (i + 1)`. -/
theorem unitIndex_spec (n : Nat) (hn : 0 < n) :
    1024 ^ unitIndex n ≤ n ∧ n < 1024 ^ (unitIndex n + 1) :=
  unitIndexAux_spec n n hn le_rfl

/-- The modelled unit index is exactly the base-1024 integer logarithm,
i.e. the exact value of `Math.floor(Math.log(n) / Math.log(1024))`. -/
theorem unitIndex_eq_log (n : Nat) (hn : 0 < n) : unitIndex n = Nat.log 1024 n := by
  obtain ⟨h1, h2⟩ := unitIndex_spec n hn
  exact (Nat.log_eq_of_pow_le_of_lt_pow h1 h2).symm

/-- Below `1024 ^ 4` the unit index stays inside the 4-entry unit table. -/
theorem unitIndex_lt_four (n : Nat) (hn : 0 < n) (hlt : n < 1024 ^ 4) :
    unitIndex n < 4 := by
  obtain ⟨h1, _⟩ := unitIndex_spec n hn
  by_contra h
  have h4 : 4 ≤ unitIndex n := Nat.le_of_not_lt h
  have : (1024 : Nat) ^ 4 ≤ 1024 ^ unitIndex n :=
    Nat.pow_le_pow_right (by norm_num) h4
  omega

/-- From `1024 ^ 4` upward the unit index overflows the table. -/
theorem four_le_unitIndex (n : Nat) (hge : 1024 ^ 4 ≤ n) :
    4 ≤ unitIndex n := by
  have hn : 0 < n := lt_of_lt_of_le (by norm_num) hge
  obtain ⟨_, h2⟩ := unitIndex_spec n hn
  have : (1024 : Nat) ^ 4 < 1024 ^ (unitIndex n + 1) := lt_of_le_of_lt hge h2
  have := (Nat.pow_lt_pow_iff_right (by norm_num : 1 < 1024)).mp this
  omega

/-- `lastIndexOfChar` returns `-1` exactly when the character is absent. -/
theorem lastIndexOfChar_of_not_mem (c : Char) :
    ∀ l : List Char, c ∉ l → lastIndexOfChar c l = -1 := by
  intro l
  induction l with
  | nil => intro _; rfl
  | cons x xs ih =>
    intro h
    have hx : x ≠ c := fun he => h (he ▸ List.mem_cons_self x xs)
    have hxs : c ∉ xs := fun hm => h (List.mem_cons_of_mem x hm)
    simp only [lastIndexOfChar, ih hxs]
    norm_num [hx]

/-- Out-of-bounds lookup in the 4-entry unit table yields the default
(JS `undefined`). -/
theorem sizes_getD_overflow (i : Nat) (h : 4 ≤ i) :
    (["Bytes", "KB", "MB", "GB"].getD i "undefined") = "undefined" := by
  obtain ⟨k, hk⟩ := Nat.exists_eq_add_of_le h
  rw [hk, Nat.add_comm]
  rfl

/-- Unfolding of `formatFileSize` at the default 2 decimals for a
nonzero byte count. -/
theorem formatFileSize_pos (n : Nat) (hn : n ≠ 0) :
    Utils.formatFileSize n 2 =
      scaledToShortString (roundHalfUp (n * 100) (1024 ^ unitIndex n)) 2 ++ " " ++
        ["Bytes", "KB", "MB", "GB"].getD (unitIndex n) "undefined" := by
  simp only [Utils.formatFileSize, if_neg hn]
  rfl

/-! ### Concrete fixtures used by witnesses and counterexamples -/

/-- A valid 1000-byte PNG file. -/
def fileA : JSFile := ⟨"photo.png", "image/png", 1000⟩

/-- A valid 2000-byte GIF file, used as a second source. -/
def fileB : JSFile := ⟨"pic2.gif", "image/gif", 2000⟩

/-- The decoded image of `fileA`. -/
def imgA : Img := ⟨"data:img-a", 4, 3⟩

/-- The decoded image of `fileB`. -/
def imgB : Img := ⟨"data:img-b", 8, 5⟩

/-- A 600-byte encoder output. -/
def blobA : Blob := ⟨600⟩

/-- A 700-byte encoder output. -/
def blobB : Blob := ⟨700⟩

/-- An empty URL registry. -/
def reg0 : UrlRegistry := ⟨0, []⟩

/-- The engine state after successfully loading `fileA`. -/
def loadedState : ConverterState :=
  { ImageConverter.initialState with originalFile := some fileA, originalImage := some imgA }

/-- `loadedState` with an encode in flight. -/
def busyState : ConverterState :=
  { loadedState with isConverting := true }

/-- `loadedState` after a successful encode produced `blobA`. -/
def convertedState : ConverterState :=
  { loadedState with convertedBlob := some blobA }

/-- First encode in the two-encode scenario of the preview-handle claim. -/
def encode1 : Except String ImageConverter.ConvResult × ConverterState × UrlRegistry :=
  ImageConverter.convertToWebP loadedState reg0 (9 / 10) (some blobA)

/-- Second encode, superseding the result of `encode1`. -/
def encode2 : Except String ImageConverter.ConvResult × ConverterState × UrlRegistry :=
  ImageConverter.convertToWebP encode1.2.1 encode1.2.2 (1 / 2) (some blobB)

/-- Inversion of a successful `loadImageFile`: the resulting state is the
old state with the file and decoded image overwritten (and nothing else
touched). -/
theorem loadImageFile_ok_state (s : ConverterState) (f : JSFile) (img : Img)
    (res : ImageConverter.LoadResult) (s' : ConverterState)
    (h : ImageConverter.loadImageFile s (some f) (some img) = (.ok res, s')) :
    s' = { s with originalFile := some f, originalImage := some img } := by
  cases hval : (Utils.validateFile (some f)).valid with
  | false => simp [ImageConverter.loadImageFile, hval] at h
  | true =>
    simp [ImageConverter.loadImageFile, hval] at h
    exact h.2.symm

/-! ### Claim theorems -/

/-- C1 (corrected): the claim asserts the in-flight flag is set to false
on every exit path of `encode`; on the `EncodeInProgressError` exit path
(a second call while one is in flight) the flag is not written at all —
it stays `true` — so the claim as stated is false at this input (clearing
it there would also contradict the claim's own "does not alter any other
state field"). -/
theorem encode_second_call_flag_counterexample :
    (ImageConverter.convertToWebP busyState reg0 (1 / 2) (some blobA)).1 =
      .error "Conversion already in progress" ∧
    ((ImageConverter.convertToWebP busyState reg0 (1 / 2) (some blobA)).2.1).isConverting
      = true := by
  exact ⟨rfl, rfl⟩

/-- C1 (amended): a second `encode` while one is in flight fails with
`EncodeInProgressError` and leaves state and URL registry entirely
unchanged — including the in-flight flag, which remains `true`; and every
call starting with the flag clear (the success path, the encoder-failure
path, and the `NoSourceError` path) exits with the flag clear, so no
single-flight lock is leaked by an encode that started. -/
theorem encode_single_flight_amended :
    ∀ (s : ConverterState) (reg : UrlRegistry) (q : ℚ) (out : Option Blob),
      (s.originalImage.isSome = true → s.isConverting = true →
        ImageConverter.convertToWebP s reg q out =
          (.error "Conversion already in progress", s, reg)) ∧
      (s.isConverting = false →
        ((ImageConverter.convertToWebP s reg q out).2.1).isConverting = false) := by
  intro s reg q out
  constructor
  · intro himg hbusy
    obtain ⟨img, h⟩ := Option.isSome_iff_exists.mp himg
    simp [ImageConverter.convertToWebP, h, hbusy]
  · intro hidle
    cases himg : s.originalImage with
    | none => simp [ImageConverter.convertToWebP, himg, hidle]
    | some img =>
      cases out with
      | none => simp [ImageConverter.convertToWebP, himg, hidle]
      | some b =>
        cases hfile : s.originalFile with
        | none => simp [ImageConverter.convertToWebP, himg, hidle, hfile]
        | some f => simp [ImageConverter.convertToWebP, himg, hidle, hfile]

/-- Witness for C1 (amended): the guarded second call at `busyState` and
a flag-clearing run from `loadedState`, hypotheses discharged concretely. -/
theorem encode_single_flight_amended_witness :
    ImageConverter.convertToWebP busyState reg0 (9 / 10) (some blobB) =
      (.error "Conversion already in progress", busyState, reg0) ∧
    ((ImageConverter.convertToWebP loadedState reg0 (9 / 10) (some blobB)).2.1).isConverting
      = false :=
  ⟨(encode_single_flight_amended busyState reg0 (9 / 10) (some blobB)).1 rfl rfl,
   (encode_single_flight_amended loadedState reg0 (9 / 10) (some blobB)).2 rfl⟩

/-- C2 (corrected): after a successful load, `encode (1/2)` succeeds but
the returned result's quality field is `1/2 * 100 = 50`, not the claimed
`q = 1/2` — the code stores `quality * 100` (a percentage) in the result. -/
theorem encode_quality_field_counterexample :
    (ImageConverter.convertToWebP
        ((ImageConverter.loadImageFile ImageConverter.initialState (some fileA) (some imgA)).2)
        reg0 (1 / 2) (some blobA)).1 =
      .ok { blob := blobA, previewUrl := "blob:0", size := 600, originalSize := 1000,
            reduction := "-40.0%", quality := 1 / 2 * 100, width := 4, height := 3 } ∧
    ((1 : ℚ) / 2) * 100 ≠ 1 / 2 := by
  constructor
  · rfl
  · norm_num

/-- C2 (amended): after a successful `loadSource` followed by a
successful `encode(q)`, `snapshotState().hasSource` is true and the
returned result's quality field equals `q * 100` (the quality as a
percentage in [0, 100]), not `q` itself. -/
theorem load_then_encode_roundtrip_amended :
    ∀ (s : ConverterState) (f : JSFile) (img : Img) (res : ImageConverter.LoadResult)
      (s' : ConverterState) (reg : UrlRegistry) (q : ℚ) (b : Blob),
      ImageConverter.loadImageFile s (some f) (some img) = (.ok res, s') →
      s.isConverting = false →
      ∃ (r : ImageConverter.ConvResult) (s'' : ConverterState) (reg' : UrlRegistry),
        ImageConverter.convertToWebP s' reg q (some b) = (.ok r, s'', reg') ∧
        ImageConverter.hasImage (ImageConverter.getState s'') = true ∧
        r.quality = q * 100 := by
  intro s f img res s' reg q b hload hidle
  have hs' := loadImageFile_ok_state s f img res s' hload
  subst hs'
  refine ⟨{ blob := b, previewUrl := "blob:" ++ toString reg.next, size := b.size,
            originalSize := f.size, reduction := Utils.calculateReduction f.size b.size,
            quality := q * 100, width := img.naturalWidth, height := img.naturalHeight },
          ({ s with
              originalFile := some f
              originalImage := some img
              convertedBlob := some b
              quality := q
              isConverting := false } : ConverterState),
          ⟨reg.next + 1, ("blob:" ++ toString reg.next) :: reg.live⟩, ?_, rfl, rfl⟩
  simp [ImageConverter.convertToWebP, createObjectURL, hidle]

/-- Witness for C2 (amended): the load/encode round trip from the
initial state with `fileA` at quality 9/10. -/
theorem load_then_encode_roundtrip_amended_witness :
    ∃ (r : ImageConverter.ConvResult) (s'' : ConverterState) (reg' : UrlRegistry),
      ImageConverter.convertToWebP loadedState reg0 (9 / 10) (some blobA) =
        (.ok r, s'', reg') ∧
      ImageConverter.hasImage (ImageConverter.getState s'') = true ∧
      r.quality = 9 / 10 * 100 :=
  load_then_encode_roundtrip_amended ImageConverter.initialState fileA imgA
    { file := fileA, image := imgA, format := "PNG", size := 1000, width := 4, height := 3,
      dataUrl := "data:img-a" }
    loadedState reg0 (9 / 10) blobA rfl rfl

/-- C3 (corrected): the claim asserts that after any failure of `encode`
every state field except the in-flight flag is unchanged; on the
encoder-failure path the code has already executed
`state.quality = quality` before the `try`, so the stored quality is
overwritten with the requested one: encoding `loadedState` (stored
quality 9/10) at quality 1/2 with a failing encoder leaves quality 1/2. -/
theorem encode_failure_quality_mutation_counterexample :
    (ImageConverter.convertToWebP loadedState reg0 (1 / 2) none).1 =
      .error "Conversion failed: Failed to convert image to WebP" ∧
    ((ImageConverter.convertToWebP loadedState reg0 (1 / 2) none).2.1).quality = 1 / 2 ∧
    loadedState.quality = 9 / 10 ∧
    ((1 : ℚ) / 2) ≠ 9 / 10 := by
  refine ⟨rfl, rfl, rfl, by norm_num⟩

/-- C3 (amended): `NoSourceError` and `EncodeInProgressError` leave the
whole state and registry untouched (the in-flight flag is not written on
those paths); on `EncodeFailedError` every field is preserved except
that the in-flight flag is cleared AND the stored quality is overwritten
with the requested quality. -/
theorem encode_error_state_amended :
    ∀ (s : ConverterState) (reg : UrlRegistry) (q : ℚ),
      (s.originalImage = none →
        ∀ out, ImageConverter.convertToWebP s reg q out =
          (.error "No image loaded for conversion", s, reg)) ∧
      (∀ img, s.originalImage = some img → s.isConverting = true →
        ∀ out, ImageConverter.convertToWebP s reg q out =
          (.error "Conversion already in progress", s, reg)) ∧
      (∀ img, s.originalImage = some img → s.isConverting = false →
        ImageConverter.convertToWebP s reg q none =
          (.error "Conversion failed: Failed to convert image to WebP",
           { s with quality := q, isConverting := false }, reg)) := by
  intro s reg q
  refine ⟨?_, ?_, ?_⟩
  · intro h out
    simp [ImageConverter.convertToWebP, h]
  · intro img h hbusy out
    simp [ImageConverter.convertToWebP, h, hbusy]
  · intro img h hidle
    simp [ImageConverter.convertToWebP, h, hidle]

/-- Witness for C3 (amended): the three failure paths at concrete
states (empty, busy, loaded-with-failing-encoder). -/
theorem encode_error_state_amended_witness :
    ImageConverter.convertToWebP ImageConverter.initialState reg0 (1 / 2) (some blobA) =
      (.error "No image loaded for conversion", ImageConverter.initialState, reg0) ∧
    ImageConverter.convertToWebP busyState reg0 (1 / 2) (some blobA) =
      (.error "Conversion already in progress", busyState, reg0) ∧
    ImageConverter.convertToWebP loadedState reg0 (1 / 2) none =
      (.error "Conversion failed: Failed to convert image to WebP",
       { loadedState with quality := 1 / 2, isConverting := false }, reg0) :=
  ⟨(encode_error_state_amended ImageConverter.initialState reg0 (1 / 2)).1 rfl (some blobA),
   (encode_error_state_amended busyState reg0 (1 / 2)).2.1 imgA rfl rfl (some blobA),
   (encode_error_state_amended loadedState reg0 (1 / 2)).2.2 imgA rfl rfl⟩

/-- C4 (corrected): the claim asserts that loading a second valid source
discards the stale `ConversionResult`; the code's `loadImageFile` writes
only `originalFile` and `originalImage`, so after a successful second
load the old blob is still stored and `isConverted()` still reports
`true` with the previous source's result. -/
theorem load_retains_stale_result_counterexample :
    (ImageConverter.loadImageFile convertedState (some fileB) (some imgB)).1 =
      .ok { file := fileB, image := imgB, format := "GIF", size := 2000, width := 8,
            height := 5, dataUrl := "data:img-b" } ∧
    ((ImageConverter.loadImageFile convertedState (some fileB) (some imgB)).2).convertedBlob =
      some blobA ∧
    ImageConverter.isConverted
      ((ImageConverter.loadImageFile convertedState (some fileB) (some imgB)).2) = true := by
  exact ⟨rfl, rfl, rfl⟩

/-- C4 (amended): loading a second valid, decodable source succeeds and
overwrites the source fields, but the stale `ConversionResult` is
retained unchanged — `convertedBlob` and hence `isConverted` are exactly
as before the call — until the next successful encode or a reset. -/
theorem load_second_source_amended :
    ∀ (s : ConverterState) (f : JSFile) (img : Img) (res : ImageConverter.LoadResult)
      (s' : ConverterState),
      ImageConverter.loadImageFile s (some f) (some img) = (.ok res, s') →
      s'.originalFile = some f ∧ s'.originalImage = some img ∧
      s'.convertedBlob = s.convertedBlob ∧
      ImageConverter.isConverted s' = ImageConverter.isConverted s := by
  intro s f img res s' hload
  have hs' := loadImageFile_ok_state s f img res s' hload
  subst hs'
  exact ⟨rfl, rfl, rfl, rfl⟩

/-- Witness for C4 (amended): the second load over `convertedState`. -/
theorem load_second_source_amended_witness :
    (ImageConverter.loadImageFile convertedState (some fileB) (some imgB)).2.originalFile
      = some fileB ∧
    (ImageConverter.loadImageFile convertedState (some fileB) (some imgB)).2.originalImage
      = some imgB ∧
    (ImageConverter.loadImageFile convertedState (some fileB) (some imgB)).2.convertedBlob
      = convertedState.convertedBlob ∧
    ImageConverter.isConverted
        (ImageConverter.loadImageFile convertedState (some fileB) (some imgB)).2 =
      ImageConverter.isConverted convertedState :=
  load_second_source_amended convertedState fileB imgB
    { file := fileB, image := imgB, format := "GIF", size := 2000, width := 8, height := 5,
      dataUrl := "data:img-b" }
    ((ImageConverter.loadImageFile convertedState (some fileB) (some imgB)).2) rfl

/-- C5 (corrected): the claim asserts every engine-issued preview handle
is released exactly once (a new encode releases the previous one, reset
releases the rest); in the code `convertToWebP` never revokes anything
and `reset` revokes only the source's `src` (a data URL), so after two
successful encodes the first preview URL `"blob:0"` is still live, and
remains live even after `reset`. -/
theorem preview_handle_leak_counterexample :
    encode1.2.2.live = ["blob:0"] ∧
    encode2.2.2.live = ["blob:1", "blob:0"] ∧
    (ImageConverter.reset encode2.2.1 encode2.2.2).2.live = ["blob:1", "blob:0"] := by
  exact ⟨rfl, rfl, rfl⟩

/-- C5 (amended): the engine never revokes a preview handle it created:
`convertToWebP` removes nothing from the live-URL registry (it only adds
the new preview URL), and `reset` removes at most the current source
image's `src` — any other live URL, in particular every preview handle
from an earlier encode, stays live.  Releasing preview handles is left
entirely to the caller. -/
theorem preview_handle_lifecycle_amended :
    (∀ (s : ConverterState) (reg : UrlRegistry) (q : ℚ) (out : Option Blob) (u : String),
      u ∈ reg.live → u ∈ ((ImageConverter.convertToWebP s reg q out).2.2).live) ∧
    (∀ (s : ConverterState) (reg : UrlRegistry) (u : String),
      u ∈ reg.live → (∀ img, s.originalImage = some img → u ≠ img.src) →
      u ∈ ((ImageConverter.reset s reg).2).live) := by
  constructor
  · intro s reg q out u hu
    cases himg : s.originalImage with
    | none => simpa [ImageConverter.convertToWebP, himg] using hu
    | some img =>
      cases hbusy : s.isConverting with
      | true => simpa [ImageConverter.convertToWebP, himg, hbusy] using hu
      | false =>
        cases out with
        | none => simpa [ImageConverter.convertToWebP, himg, hbusy] using hu
        | some b =>
          cases hfile : s.originalFile with
          | none =>
            simp [ImageConverter.convertToWebP, himg, hbusy, hfile, createObjectURL]
            exact Or.inr hu
          | some f =>
            simp [ImageConverter.convertToWebP, himg, hbusy, hfile, createObjectURL]
            exact Or.inr hu
  · intro s reg u hu hne
    cases himg : s.originalImage with
    | none => simpa [ImageConverter.reset, himg] using hu
    | some img =>
      have hneq : u ≠ img.src := hne img himg
      simp [ImageConverter.reset, himg, revokeObjectURL]
      exact (List.mem_erase_of_ne hneq).mpr hu

/-- Witness for C5 (amended): a pre-existing live URL `"blob:9"` survives
both an encode and a reset from `loadedState`. -/
theorem preview_handle_lifecycle_amended_witness :
    "blob:9" ∈
      ((ImageConverter.convertToWebP loadedState ⟨10, ["blob:9"]⟩ (9 / 10) (some blobA)).2.2).live ∧
    "blob:9" ∈ ((ImageConverter.reset loadedState ⟨10, ["blob:9"]⟩).2).live :=
  ⟨preview_handle_lifecycle_amended.1 loadedState ⟨10, ["blob:9"]⟩ (9 / 10) (some blobA)
      "blob:9" (by simp),
   preview_handle_lifecycle_amended.2 loadedState ⟨10, ["blob:9"]⟩ "blob:9" (by simp)
      (by
        intro img h
        have himg : imgA = img := Option.some.inj h
        subst himg
        decide)⟩

/-- C6 (corrected): the claim asserts a `reset` issued while an encode is
in flight is rejected with a busy error and leaves the state unchanged;
the code's `reset` has no busy check (and no failure outcome at all): at
`busyState` it proceeds, clearing the image and the in-flight flag. -/
theorem reset_while_converting_counterexample :
    busyState.isConverting = true ∧
    (ImageConverter.reset busyState reg0).1.isConverting = false ∧
    (ImageConverter.reset busyState reg0).1.originalImage = none ∧
    busyState.originalImage = some imgA := by
  exact ⟨rfl, rfl, rfl, rfl⟩

/-- C6 (amended): `reset` called while Converting is not rejected — it
proceeds unconditionally and reinstalls the initial state: no source, no
result, quality back to the 0.9 default, in-flight flag cleared. -/
theorem reset_unconditional_amended :
    ∀ (s : ConverterState) (reg : UrlRegistry), s.isConverting = true →
      (ImageConverter.reset s reg).1 = ImageConverter.initialState ∧
      ImageConverter.hasImage (ImageConverter.reset s reg).1 = false ∧
      ImageConverter.isConverted (ImageConverter.reset s reg).1 = false ∧
      (ImageConverter.reset s reg).1.quality = 9 / 10 ∧
      (ImageConverter.reset s reg).1.isConverting = false := by
  intro s reg _
  exact ⟨rfl, rfl, rfl, rfl, rfl⟩

/-- Witness for C6 (amended): the reset at `busyState`. -/
theorem reset_unconditional_amended_witness :
    (ImageConverter.reset busyState reg0).1 = ImageConverter.initialState ∧
    ImageConverter.hasImage (ImageConverter.reset busyState reg0).1 = false ∧
    ImageConverter.isConverted (ImageConverter.reset busyState reg0).1 = false ∧
    (ImageConverter.reset busyState reg0).1.quality = 9 / 10 ∧
    (ImageConverter.reset busyState reg0).1.isConverting = false :=
  reset_unconditional_amended busyState reg0 rfl

/-- C7 (confirmed): `validateFile` applies its checks in a fixed order.
A missing file fails with the no-file message; otherwise a MIME type
outside the exact 6-element allow-list fails with the unsupported-type
message enumerating the allow-list in uppercase extension form;
otherwise a size above 10,485,760 bytes fails with the too-large message;
otherwise validation succeeds, the boundary size 10,485,760 included
(covered by the `≤` case). -/
theorem validateFile_order_spec :
    Utils.SUPPORTED_TYPES =
      ["image/png", "image/jpeg", "image/jpg", "image/gif", "image/bmp", "image/svg+xml"] ∧
    Utils.MAX_FILE_SIZE = 10485760 ∧
    Utils.validateFile none = ⟨false, some "No file selected"⟩ ∧
    (∀ f : JSFile, f.type ∉ Utils.SUPPORTED_TYPES →
      Utils.validateFile (some f) =
        ⟨false, some ("Unsupported file type: " ++ f.type ++
          ". Supported formats: " ++ "PNG, JPEG, JPG, GIF, BMP, SVG+XML")⟩) ∧
    (∀ f : JSFile, f.type ∈ Utils.SUPPORTED_TYPES → 10485760 < f.size →
      Utils.validateFile (some f) =
        ⟨false, some ("File size exceeds 10 MB limit. Selected file: " ++
          Utils.formatFileSize f.size 2)⟩) ∧
    (∀ f : JSFile, f.type ∈ Utils.SUPPORTED_TYPES → f.size ≤ 10485760 →
      Utils.validateFile (some f) = ⟨true, none⟩) := by
  refine ⟨rfl, rfl, rfl, ?_, ?_, ?_⟩
  · intro f h
    have hty : Utils.isValidFileType f = false := by
      simp [Utils.isValidFileType, h]
    simp only [Utils.validateFile, hty, Bool.not_false, if_true]
    rfl
  · intro f hmem hsz
    have hty : Utils.isValidFileType f = true := by
      simp [Utils.isValidFileType, hmem]
    have hs : Utils.isValidFileSize f = false := by
      simp only [Utils.isValidFileSize, Utils.MAX_FILE_SIZE]
      simp only [decide_eq_false_iff_not, not_le]
      omega
    simp only [Utils.validateFile, hty, hs, Bool.not_true, Bool.not_false,
      if_false, if_true]
    rfl
  · intro f hmem hsz
    have hty : Utils.isValidFileType f = true := by
      simp [Utils.isValidFileType, hmem]
    have hs : Utils.isValidFileSize f = true := by
      simp only [Utils.isValidFileSize, Utils.MAX_FILE_SIZE]
      simp only [decide_eq_true_eq]
      omega
    simp only [Utils.validateFile, hty, hs, Bool.not_true, if_false]
    rfl

/-- Witness for C7: the four outcomes at concrete files (an unsupported
TIFF, an oversized PNG, a boundary-sized PNG), with every hypothesis
discharged concretely. -/
theorem validateFile_order_spec_witness :
    Utils.validateFile (some ⟨"a.tiff", "image/tiff", 5⟩) =
      ⟨false, some ("Unsupported file type: " ++ "image/tiff" ++
        ". Supported formats: " ++ "PNG, JPEG, JPG, GIF, BMP, SVG+XML")⟩ ∧
    Utils.validateFile (some ⟨"a.png", "image/png", 10485761⟩) =
      ⟨false, some ("File size exceeds 10 MB limit. Selected file: " ++
        Utils.formatFileSize 10485761 2)⟩ ∧
    Utils.validateFile (some ⟨"a.png", "image/png", 10485760⟩) = ⟨true, none⟩ :=
  ⟨validateFile_order_spec.2.2.2.1 ⟨"a.tiff", "image/tiff", 5⟩ (by decide),
   validateFile_order_spec.2.2.2.2.1 ⟨"a.png", "image/png", 10485761⟩ (by decide) (by decide),
   validateFile_order_spec.2.2.2.2.2 ⟨"a.png", "image/png", 10485760⟩ (by decide) (by decide)⟩

/-- C9 (corrected): the claim also asserts that a name with no `'.'`
keeps the full name as stem; in the code `lastIndexOf('.')` is `-1` and
`substring(0, -1)` clamps to the empty string, so the whole name is
dropped: `generateWebPFilename "photo" = ".webp"`, not `"photo.webp"`. -/
theorem generateWebPFilename_no_ext_counterexample :
    Utils.generateWebPFilename "photo" = ".webp" ∧
    (".webp" : String) ≠ "photo.webp" := by
  constructor
  · decide
  · decide

/-- C9 (amended): `generateWebPFilename` strips the last-`.` extension
and appends `.webp` (both spec examples hold); for a name containing no
`'.'` the stem is empty and the result is exactly `".webp"` — the
original name is lost rather than kept. -/
theorem generateWebPFilename_amended :
    Utils.generateWebPFilename "photo.png" = "photo.webp" ∧
    Utils.generateWebPFilename "my.photo.jpeg" = "my.photo.webp" ∧
    ∀ name : String, '.' ∉ name.data → Utils.generateWebPFilename name = ".webp" := by
  refine ⟨by decide, by decide, ?_⟩
  intro name h
  simp only [Utils.generateWebPFilename, lastIndexOfChar_of_not_mem '.' name.data h]
  rfl

/-- Witness for C9 (amended): the no-extension case at `"photo"`. -/
theorem generateWebPFilename_amended_witness :
    Utils.generateWebPFilename "photo" = ".webp" :=
  generateWebPFilename_amended.2.2 "photo" (by decide)

/-- C8 (corrected): the claim asserts the unit index is clamped to the
bounds of the table so the output always carries one of the four units;
the code performs no clamping, so at `2 · 1024⁴` bytes the index is 4,
`sizes[4]` is JS `undefined`, and the output is `"2 undefined"` — whose
unit is not a member of the table. -/
theorem formatFileSize_unclamped_counterexample :
    Utils.formatFileSize (2 * 1024 ^ 4) 2 = "2 undefined" ∧
    "undefined" ∉ ["Bytes", "KB", "MB", "GB"] ∧
    unitIndex (2 * 1024 ^ 4) = 4 := by
  refine ⟨by decide, by decide, by decide⟩

/-- C8 (amended): `formatFileSize(0) = "0 Bytes"`,
`formatFileSize(1536) = "1.5 KB"`, `formatFileSize(1048576) = "1 MB"`;
for positive bytes the unit index is exactly `⌊log bytes / log 1024⌋`
(the base-1024 integer logarithm) and is NOT clamped: below `1024⁴` it
stays within the table and the output carries the indexed unit, while
from `1024⁴` upward the lookup is out of bounds and the output unit is
the string `"undefined"`. -/
theorem formatFileSize_amended :
    Utils.formatFileSize 0 2 = "0 Bytes" ∧
    Utils.formatFileSize 1536 2 = "1.5 KB" ∧
    Utils.formatFileSize 1048576 2 = "1 MB" ∧
    (∀ n : Nat, 0 < n → unitIndex n = Nat.log 1024 n) ∧
    (∀ n : Nat, 0 < n → n < 1024 ^ 4 →
      unitIndex n < 4 ∧
      ∃ p : String, Utils.formatFileSize n 2 =
        p ++ " " ++ ["Bytes", "KB", "MB", "GB"].getD (unitIndex n) "undefined") ∧
    (∀ n : Nat, 1024 ^ 4 ≤ n →
      ∃ p : String, Utils.formatFileSize n 2 = p ++ "undefined") := by
  refine ⟨by decide, by decide, by decide, unitIndex_eq_log, ?_, ?_⟩
  · intro n hn hlt
    exact ⟨unitIndex_lt_four n hn hlt, _, formatFileSize_pos n (by omega)⟩
  · intro n hge
    have hpos : (0 : Nat) < 1024 ^ 4 := by norm_num
    have hn : n ≠ 0 := by omega
    have hu := sizes_getD_overflow (unitIndex n) (four_le_unitIndex n hge)
    refine ⟨scaledToShortString (roundHalfUp (n * 100) (1024 ^ unitIndex n)) 2 ++ " ", ?_⟩
    rw [formatFileSize_pos n hn, hu]

/-- Witness for C8 (amended): the in-range clause at 1536 bytes and the
overflow clause at `1024⁴` bytes, hypotheses discharged concretely. -/
theorem formatFileSize_amended_witness :
    unitIndex 1536 = Nat.log 1024 1536 ∧
    (unitIndex 1536 < 4 ∧ ∃ p, Utils.formatFileSize 1536 2 =
      p ++ " " ++ ["Bytes", "KB", "MB", "GB"].getD (unitIndex 1536) "undefined") ∧
    (∃ p, Utils.formatFileSize (1024 ^ 4) 2 = p ++ "undefined") :=
  ⟨formatFileSize_amended.2.2.2.1 1536 (by norm_num),
   formatFileSize_amended.2.2.2.2.1 1536 (by norm_num) (by norm_num),
   formatFileSize_amended.2.2.2.2.2 (1024 ^ 4) (by norm_num)⟩

/-- C10 (confirmed): `calculateReduction n n = "-0.0%"` for every
positive size `n`, and the `'-'` sign is chosen in every case with
`newSize ≤ originalSize` (the code tests `reduction >= 0`, which for a
positive original size is exactly `newSize ≤ originalSize`, so the
zero-change case gets the shrank sign). -/
theorem calculateReduction_zero_and_sign :
    (∀ n : Nat, 0 < n → Utils.calculateReduction n n = "-0.0%") ∧
    (∀ o m : Nat, 0 < o → m ≤ o →
      ∃ rest, Utils.calculateReduction o m = "-" ++ rest) := by
  constructor
  · intro n hn
    have h0 : roundHalfUp ((n - n) * 1000) n = 0 := by
      unfold roundHalfUp
      rw [Nat.sub_self n]
      norm_num
      exact Nat.div_eq_of_lt (by omega)
    unfold Utils.calculateReduction
    rw [if_pos (le_refl n), h0]
    rfl
  · intro o m ho hm
    unfold Utils.calculateReduction
    rw [if_pos hm]
    exact ⟨_, rfl⟩

/-- Witness for C10: the zero-change case at `n = 5` and the sign at
`(1000, 600)`, hypotheses discharged concretely. -/
theorem calculateReduction_zero_and_sign_witness :
    Utils.calculateReduction 5 5 = "-0.0%" ∧
    ∃ rest, Utils.calculateReduction 1000 600 = "-" ++ rest :=
  ⟨calculateReduction_zero_and_sign.1 5 (by norm_num),
   calculateReduction_zero_and_sign.2 1000 600 (by norm_num) (by norm_num)⟩

end WebpConv
